import Mathlib

/-!
Verification of the file-preview content resolution and rendering pipeline of
the dialin-search web frontend, as implemented in
`web/src/components/admin/connectors/FilePreviewModal.tsx` (the fuller variant,
which fetches both original and indexed content) and the connector
configuration display (`getFileIcon` and the preview wiring).

The component state, its two fetch operations (split into their synchronous
prefix and their asynchronous continuation around the `await` points), the
render selector and the effect footprint (network requests, object-URL
creation and revocation) are shallowly embedded as pure Lean functions.
-/

set_option maxHeartbeats 1000000

/-! ### JavaScript string helpers

`fileExt` in the source is `fileName.split('.').pop()?.toLowerCase() || ''`.
We model `String.prototype.split` with a one-character separator, `Array.pop`
(the last element; `split` always returns a non-empty array), and ASCII
`toLowerCase`. -/

/-- Model of JavaScript `split(sep)` for a single-character separator,
on the character list of the string. `split` never returns an empty list:
the empty string yields `[[]]`, matching JavaScript. -/
def splitOnChar (sep : Char) : List Char → List (List Char)
  | [] => [[]]
  | c :: cs =>
    let rest := splitOnChar sep cs
    if c = sep then
      [] :: rest
    else
      match rest with
      | [] => [[c]]
      | seg :: segs => (c :: seg) :: segs

/-- Model of JavaScript `toLowerCase` on a single character (ASCII range,
which is all the classification tables use). -/
def jsCharLower (c : Char) : Char :=
  if 65 ≤ c.toNat ∧ c.toNat ≤ 90 then Char.ofNat (c.toNat + 32) else c

/-- Truthiness of an optional string prop: JavaScript `if (x)` is false for
`undefined` and for the empty string. -/
def jsTruthy (o : Option String) : Bool := decide (o.getD "" ≠ "")

/-- FilePreviewModal.tsx line 301:
`const fileExt = fileName.split('.').pop()?.toLowerCase() || '';`.
Note that for a name without a dot the whole (lowercased) name is returned,
since `split` then yields the one-element array holding the name itself. -/
def fileExt (fileName : String) : String :=
  String.mk (((splitOnChar '.' fileName.toList).getLastD []).map jsCharLower)

/-! ### Extension classification tables (FilePreviewModal.tsx lines 302-307) -/

def imageExts : List String := ["jpg", "jpeg", "png", "gif", "webp", "svg"]

def textExts : List String := ["txt", "md", "markdown", "json", "csv", "xml", "html"]

def documentExts : List String := ["docx", "doc", "rtf"]

def spreadsheetExts : List String := ["xlsx", "xls", "csv"]

def codeExts : List String := ["js", "ts", "jsx", "tsx", "py", "java", "c", "cpp", "rb", "php"]

/-- Line 302: `const isPdf = fileExt === 'pdf';` -/
def isPdf (e : String) : Bool := e == "pdf"

/-- Line 303: `const isImage = ['jpg', 'jpeg', 'png', 'gif', 'webp', 'svg'].includes(fileExt);` -/
def isImage (e : String) : Bool := decide (e ∈ imageExts)

/-- Line 304: `const isTextFile = [...].includes(fileExt);` -/
def isTextFile (e : String) : Bool := decide (e ∈ textExts)

/-- Line 305: `const isDocument = ['docx', 'doc', 'rtf'].includes(fileExt);` -/
def isDocument (e : String) : Bool := decide (e ∈ documentExts)

/-- Line 306: `const isSpreadsheet = ['xlsx', 'xls', 'csv'].includes(fileExt);` -/
def isSpreadsheet (e : String) : Bool := decide (e ∈ spreadsheetExts)

/-- Line 307: `const isCode = [...].includes(fileExt);` -/
def isCode (e : String) : Bool := decide (e ∈ codeExts)

/-- The content categories of the design contract (spec section 3). -/
inductive ContentCategory
  | pdf
  | image
  | text
  | document
  | spreadsheet
  | code
  | other
deriving DecidableEq, Repr

/-- The classifier of the preview component: the six extension predicates of
FilePreviewModal.tsx lines 302-307, combined in their declaration order into
the single category of the design contract. -/
def classify (fileName : String) : ContentCategory :=
  let e := fileExt fileName
  if isPdf e then ContentCategory.pdf
  else if isImage e then ContentCategory.image
  else if isTextFile e then ContentCategory.text
  else if isDocument e then ContentCategory.document
  else if isSpreadsheet e then ContentCategory.spreadsheet
  else if isCode e then ContentCategory.code
  else ContentCategory.other

/-! ### Icon selection (connector config display, getFileIcon) -/

/-- The four distinct icon elements returned by `getFileIcon` in the
connector configuration display. -/
inductive FileIconKind
  | fiFileRed        -- FiFile, text-red-500
  | fileImageBlue    -- FileImage, text-blue-500
  | fileCodeGreen    -- FileCode, text-green-500
  | fileTextDefault  -- FileText, text-text-500
deriving DecidableEq, Repr

/-- The code-extension list of `getFileIcon` (note: it contains `"go"`,
which the preview predicates do not). -/
def codeIconExts : List String :=
  ["js", "ts", "jsx", "tsx", "py", "java", "c", "cpp", "php", "rb", "go"]

/-- `getFileIcon` from the connector configuration display (lines 48-60):
`const ext = fileName.split('.').pop()?.toLowerCase() || '';` followed by
the four `includes` branches. -/
def getFileIcon (fileName : String) : FileIconKind :=
  let ext := fileExt fileName
  if decide (ext ∈ ["pdf"]) then FileIconKind.fiFileRed
  else if decide (ext ∈ imageExts) then FileIconKind.fileImageBlue
  else if decide (ext ∈ codeIconExts) then FileIconKind.fileCodeGreen
  else FileIconKind.fileTextDefault

/-- The evident correspondence between preview categories and icons, used to
compare the two classification logics: pdf, image and code have dedicated
icons, every other category falls to the default text icon. -/
def iconOfCategory : ContentCategory → FileIconKind
  | ContentCategory.pdf => FileIconKind.fiFileRed
  | ContentCategory.image => FileIconKind.fileImageBlue
  | ContentCategory.code => FileIconKind.fileCodeGreen
  | _ => FileIconKind.fileTextDefault

/-! ### Component data model

The props of `FilePreviewModal` that determine a preview session, and the
`useState` cells of the component. -/

/-- The props describing one preview request (FilePreviewModal.tsx
lines 282-290). `isOpen` and `onClose` are carried by the session events
below rather than by the request record. -/
structure PreviewRequest where
  fileName : String
  filePath : Option String := none
  documentId : Option String := none
  mockOriginalContent : Option String := none
  mockIndexedContent : Option String := none
deriving DecidableEq, Repr

/-- The `useState` cells of the component (lines 291-298), with their
initial values as the field defaults. `activeTab` is omitted: no claim
and no rendering path in this variant reads it. -/
structure ModalState where
  isLoading : Bool := true
  originalContentLoading : Bool := true
  indexedContentLoading : Bool := true
  originalContent : String := ""
  indexedContent : String := ""
  fileUrl : String := ""
  error : Option String := none
deriving DecidableEq, Repr

/-- The state of a freshly mounted component. -/
def initialState : ModalState := {}

/-- Observable side effects of the component: network requests issued,
object URLs created by `URL.createObjectURL`, and object URLs revoked by
`URL.revokeObjectURL` (the component never performs the latter, but the
effect is part of the vocabulary so that its absence can be stated). -/
inductive Effect
  | netGetFile (fileId : String)       -- GET /api/chat/file/{fileId}
  | netGetIndexed (docId : String)     -- GET /api/document/indexed-content?document_id={docId}
  | createURL (url : String)
  | revokeURL (url : String)
deriving DecidableEq, Repr

def isNetGetFileEffect : Effect → Bool
  | Effect.netGetFile _ => true
  | _ => false

def isCreateURLEffect : Effect → Bool
  | Effect.createURL _ => true
  | _ => false

def isRevokeURLEffect : Effect → Bool
  | Effect.revokeURL _ => true
  | _ => false

/-- Line 321: `const fileId = filePath || fileName;`. -/
def fileId (req : PreviewRequest) : String :=
  if jsTruthy req.filePath then req.filePath.getD "" else req.fileName

/-- The error message set by the catch block of `fetchOriginalContent`
(line 346). -/
def origFailMsg : String := "Failed to load original file content."

/-- The replacement text set by the catch block of `fetchIndexedContent`
(line 383). -/
def idxUnavailableMsg : String := "Indexed content is not available for this file."

/-! ### fetchOriginalContent (lines 310-349)

The body is split at its `await` points into a synchronous prefix, which
runs when the function is called from the open effect, and an asynchronous
continuation, which runs when the network response arrives. -/

/-- Result of the synchronous prefix of a fetch function: the state after
the synchronous `setState` calls, the effects emitted synchronously, and
whether an asynchronous continuation is now in flight. -/
structure SyncResult where
  state : ModalState
  effects : List Effect
  pending : Bool
deriving DecidableEq, Repr

/-- Synchronous prefix of `fetchOriginalContent` (lines 310-324): the mock
short-circuit, `setOriginalContentLoading(true)`, and the issuing of the
file-content request. Everything after `await fetch` belongs to the
continuation. -/
def fetchOriginalContentStart (req : PreviewRequest) (s : ModalState) : SyncResult :=
  if jsTruthy req.mockOriginalContent then
    { state := { s with originalContent := req.mockOriginalContent.getD ""
                        originalContentLoading := false }
      effects := []
      pending := false }
  else
    { state := { s with originalContentLoading := true }
      effects := [Effect.netGetFile (fileId req)]
      pending := true }

/-- How the environment resolves the file-content request. On a 2xx
response the body bytes are `text` and `URL.createObjectURL(blob)` yields
`url`; a non-2xx response or a network failure lands in the catch block. -/
inductive OrigOutcome
  | ok (url : String) (text : String)
  | httpErr
  | netErr
deriving DecidableEq, Repr

/-- Continuation of `fetchOriginalContent` after `await fetch`
(lines 328-348). On success the object URL is stored unconditionally and
the decoded text additionally when the extension is textual; any throw is
caught, setting the shared error and settling the fetch. The predicates
are evaluated on the file name the closure captured when the fetch was
started, hence the `req` argument. -/
def fetchOriginalContentResolve (req : PreviewRequest) (o : OrigOutcome)
    (s : ModalState) : ModalState × List Effect :=
  match o with
  | OrigOutcome.ok url text =>
    let e := fileExt req.fileName
    let s1 := { s with fileUrl := url }
    let s2 := if isTextFile e || isCode e || isSpreadsheet e then
                { s1 with originalContent := text }
              else s1
    ({ s2 with originalContentLoading := false }, [Effect.createURL url])
  | OrigOutcome.httpErr =>
    ({ s with error := some origFailMsg, originalContentLoading := false }, [])
  | OrigOutcome.netErr =>
    ({ s with error := some origFailMsg, originalContentLoading := false }, [])

/-! ### fetchIndexedContent (lines 352-386) -/

/-- Control flow taken by the synchronous prefix of `fetchIndexedContent`:
the mock short-circuit, a request actually issued, or a synchronous throw
landing in the catch block. The throw is either the explicit
`new Error("No document ID available for indexed content")` when the
computed id is empty, or the ReferenceError raised by evaluating
`getDocumentIdFromPath`, an identifier that is defined nowhere in the
repository. -/
inductive IdxFlow
  | mockUsed
  | requestIssued (docId : String)
  | threwNoDocId
  | threwRefError
deriving DecidableEq, Repr

/-- The catch block of `fetchIndexedContent` (lines 381-385): store the
fixed unavailable message as the indexed content and settle the fetch.
The shared error state is not touched. -/
def idxCatch (s : ModalState) : ModalState :=
  { s with indexedContent := idxUnavailableMsg, indexedContentLoading := false }

structure IdxSyncResult where
  state : ModalState
  effects : List Effect
  flow : IdxFlow
deriving DecidableEq, Repr

/-- Synchronous prefix of `fetchIndexedContent` (lines 352-372): the mock
short-circuit, `setIndexedContentLoading(true)`, the document-id
computation `documentId || (filePath ? getDocumentIdFromPath(filePath) : "")`,
the empty-id throw, and the issuing of the indexed-content request. -/
def fetchIndexedContentStart (req : PreviewRequest) (s : ModalState) : IdxSyncResult :=
  if jsTruthy req.mockIndexedContent then
    { state := { s with indexedContent := req.mockIndexedContent.getD ""
                        indexedContentLoading := false }
      effects := []
      flow := IdxFlow.mockUsed }
  else
    let s1 := { s with indexedContentLoading := true }
    if jsTruthy req.documentId then
      { state := s1
        effects := [Effect.netGetIndexed (req.documentId.getD "")]
        flow := IdxFlow.requestIssued (req.documentId.getD "") }
    else if jsTruthy req.filePath then
      -- `getDocumentIdFromPath(filePath)` is evaluated here, but that
      -- identifier is neither imported nor defined anywhere in the
      -- repository: the call raises a ReferenceError, caught below.
      { state := idxCatch s1, effects := [], flow := IdxFlow.threwRefError }
    else
      -- docId is the empty string, which is falsy:
      -- `throw new Error("No document ID available for indexed content")`.
      { state := idxCatch s1, effects := [], flow := IdxFlow.threwNoDocId }

/-- How the environment resolves the indexed-content request: a 2xx JSON
response whose `content` field is `content`, or a non-2xx response or
network failure landing in the catch block. -/
inductive IdxOutcome
  | ok (content : String)
  | httpErr
  | netErr
deriving DecidableEq, Repr

/-- Continuation of `fetchIndexedContent` after `await fetch`
(lines 374-385). -/
def fetchIndexedContentResolve (o : IdxOutcome) (s : ModalState) : ModalState :=
  match o with
  | IdxOutcome.ok content =>
    { s with indexedContent := content, indexedContentLoading := false }
  | IdxOutcome.httpErr => idxCatch s
  | IdxOutcome.netErr => idxCatch s

/-! ### The open effect (lines 388-401)

`useEffect` with `isOpen` true: `setIsLoading(true)`, `setError(null)`,
then the synchronous prefixes of both fetch calls run in order. The
`Promise.all(...).finally` callback, which performs `setIsLoading(false)`
once both promises have settled, is a separate event below. -/

def openEffect (req : PreviewRequest) (s : ModalState) : ModalState × List Effect :=
  let s1 := { s with isLoading := true, error := none }
  let r1 := fetchOriginalContentStart req s1
  let r2 := fetchIndexedContentStart req r1.state
  (r2.state, r1.effects ++ r2.effects)

/-! ### Session events and traces

A session trace interleaves open effects, fetch continuations (tagged with
the request whose closure they captured), the `Promise.all` finally
callback, and the explicit close. The component installs no effect
cleanup, keeps no request token, and never calls `URL.revokeObjectURL`,
so a continuation of an earlier request applies its state updates
unchanged when it resolves, and closing performs no state or resource
teardown inside the component. -/

inductive Event
  | eOpen (req : PreviewRequest)
  | eOrigResolve (req : PreviewRequest) (o : OrigOutcome)
  | eIdxResolve (o : IdxOutcome)
  | eFinally
  | eClose
deriving DecidableEq, Repr

def step (ev : Event) (s : ModalState) : ModalState × List Effect :=
  match ev with
  | Event.eOpen req => openEffect req s
  | Event.eOrigResolve req o => fetchOriginalContentResolve req o s
  | Event.eIdxResolve o => (fetchIndexedContentResolve o s, [])
  | Event.eFinally => ({ s with isLoading := false }, [])
  | Event.eClose => (s, [])

/-- Run a session trace from a given state and effect log, accumulating
the emitted effects in order. -/
def runFrom (p : ModalState × List Effect) : List Event → ModalState × List Effect
  | [] => p
  | ev :: evs =>
    let r := step ev p.1
    runFrom (r.1, p.2 ++ r.2) evs

/-- Run a session trace from the freshly mounted state. -/
def run (es : List Event) : ModalState × List Effect :=
  runFrom (initialState, []) es

/-! ### renderFileContent (lines 498-566) -/

/-- The distinct render outputs of `renderFileContent`: the spinner, the
error panel, the PDF iframe (whose `src` is the object URL with the
toolbar-suppressing fragment), the bounded image element, the
download-to-view placeholder for opaque document formats, and the
preformatted text block (monospace when the code predicate holds). -/
inductive RenderInstruction
  | spinner
  | errorPanel (msg : String)
  | pdfViewer (src : String)
  | imageView (src : String) (alt : String)
  | docDownloadPlaceholder
  | preText (text : String) (monospace : Bool)
deriving DecidableEq, Repr

/-- `renderFileContent(isOriginal)` (lines 498-566), translated branch by
branch: the loading gate, the shared-error gate, the three
original-only branches, and the common preformatted-text fallthrough with
its empty-content placeholders. -/
def renderFileContent (req : PreviewRequest) (isOriginal : Bool)
    (s : ModalState) : RenderInstruction :=
  if s.isLoading || (if isOriginal then s.originalContentLoading else s.indexedContentLoading) then
    RenderInstruction.spinner
  else
    match s.error with
    | some msg => RenderInstruction.errorPanel msg
    | none =>
      let e := fileExt req.fileName
      if isOriginal = true ∧ isPdf e = true ∧ s.fileUrl ≠ "" then
        RenderInstruction.pdfViewer (s.fileUrl ++ "#toolbar=0")
      else if isOriginal = true ∧ isImage e = true ∧ s.fileUrl ≠ "" then
        RenderInstruction.imageView s.fileUrl req.fileName
      else if isOriginal = true ∧ isDocument e = true ∧ s.originalContent = "" then
        RenderInstruction.docDownloadPlaceholder
      else
        let displayContent := if isOriginal then s.originalContent else s.indexedContent
        RenderInstruction.preText
          (if displayContent = "" then
            (if isOriginal then "No original content available"
             else "No indexed content available")
           else displayContent)
          (isCode e)

/-- Line 580: the Download Original button is rendered exactly when
`fileUrl` is truthy. -/
def downloadButtonShown (s : ModalState) : Bool := !(s.fileUrl == "")

/-- Whether a render instruction is one of the two binary-resource
branches (PDF viewer or image element). -/
def rendersBinary : RenderInstruction → Bool
  | RenderInstruction.pdfViewer _ => true
  | RenderInstruction.imageView _ _ => true
  | _ => false

/-- The renderer decision table as the specification words it (design
contract section 4.3), written against the category of the classifier for
comparison with `renderFileContent`: loading yields the spinner regardless
of category; otherwise a present error yields the error panel; otherwise a
pdf with a binary resource yields the embedded viewer with the toolbar
suppressed; otherwise an image with a binary resource yields the bounded
image; otherwise a document without decoded text yields the download
placeholder; otherwise the preformatted text block (monospace exactly for
the code category). -/
def selectRendererSpec (req : PreviewRequest) (s : ModalState) : RenderInstruction :=
  if s.isLoading || s.originalContentLoading then
    RenderInstruction.spinner
  else
    match s.error with
    | some msg => RenderInstruction.errorPanel msg
    | none =>
      if classify req.fileName = ContentCategory.pdf ∧ s.fileUrl ≠ "" then
        RenderInstruction.pdfViewer (s.fileUrl ++ "#toolbar=0")
      else if classify req.fileName = ContentCategory.image ∧ s.fileUrl ≠ "" then
        RenderInstruction.imageView s.fileUrl req.fileName
      else if classify req.fileName = ContentCategory.document ∧ s.originalContent = "" then
        RenderInstruction.docDownloadPlaceholder
      else
        RenderInstruction.preText
          (if s.originalContent = "" then "No original content available"
           else s.originalContent)
          (decide (classify req.fileName = ContentCategory.code))

/-! ### Helper lemmas: the extension tables are mutually disjoint
(except `csv`, shared by the text and spreadsheet tables, which none of
the lemmas below need). -/

lemma isPdf_elim (e : String) (h : isPdf e = true) :
    isImage e = false ∧ isTextFile e = false ∧ isDocument e = false ∧
      isSpreadsheet e = false ∧ isCode e = false := by
  simp only [isPdf, beq_iff_eq] at h
  subst h
  decide

lemma isImage_elim (e : String) (h : isImage e = true) :
    isPdf e = false ∧ isTextFile e = false ∧ isDocument e = false ∧
      isSpreadsheet e = false ∧ isCode e = false := by
  simp only [isImage, decide_eq_true_eq, imageExts, List.mem_cons,
    List.not_mem_nil, or_false] at h
  rcases h with rfl | rfl | rfl | rfl | rfl | rfl <;> decide

lemma isDocument_elim (e : String) (h : isDocument e = true) :
    isPdf e = false ∧ isImage e = false ∧ isTextFile e = false ∧
      isSpreadsheet e = false ∧ isCode e = false := by
  simp only [isDocument, decide_eq_true_eq, documentExts, List.mem_cons,
    List.not_mem_nil, or_false] at h
  rcases h with rfl | rfl | rfl <;> decide

lemma isCode_elim (e : String) (h : isCode e = true) :
    isPdf e = false ∧ isImage e = false ∧ isTextFile e = false ∧
      isDocument e = false ∧ isSpreadsheet e = false := by
  simp only [isCode, decide_eq_true_eq, codeExts, List.mem_cons,
    List.not_mem_nil, or_false] at h
  rcases h with rfl | rfl | rfl | rfl | rfl | rfl | rfl | rfl | rfl | rfl <;> decide

lemma classify_eq_pdf_iff (f : String) :
    classify f = ContentCategory.pdf ↔ isPdf (fileExt f) = true := by
  unfold classify
  cases h : isPdf (fileExt f)
  · simp only [h, Bool.false_eq_true, if_false]
    split_ifs <;> simp
  · simp [h]

lemma classify_eq_image_iff (f : String) :
    classify f = ContentCategory.image ↔ isImage (fileExt f) = true := by
  unfold classify
  cases h : isImage (fileExt f)
  · simp only [h, Bool.false_eq_true, if_false]
    split_ifs <;> simp_all
  · have hp := (isImage_elim _ h).1
    simp [h, hp]

lemma classify_eq_document_iff (f : String) :
    classify f = ContentCategory.document ↔ isDocument (fileExt f) = true := by
  unfold classify
  cases h : isDocument (fileExt f)
  · simp only [h, Bool.false_eq_true, if_false]
    split_ifs <;> simp_all
  · obtain ⟨h1, h2, h3, h4, h5⟩ := isDocument_elim _ h
    simp [h, h1, h2, h3]

lemma classify_eq_code_iff (f : String) :
    classify f = ContentCategory.code ↔ isCode (fileExt f) = true := by
  unfold classify
  cases h : isCode (fileExt f)
  · simp only [h, Bool.false_eq_true, if_false]
    split_ifs <;> simp_all
  · obtain ⟨h1, h2, h3, h4, h5⟩ := isCode_elim _ h
    simp [h, h1, h2, h3, h4, h5]

lemma decide_classify_code (f : String) :
    decide (classify f = ContentCategory.code) = isCode (fileExt f) := by
  cases h : isCode (fileExt f)
  · simp [classify_eq_code_iff, h]
  · simp [classify_eq_code_iff, h]

lemma mem_codeIcon_of_mem_code (e : String) (h : e ∈ codeExts) : e ∈ codeIconExts := by
  simp only [codeExts, List.mem_cons, List.not_mem_nil, or_false] at h
  rcases h with rfl | rfl | rfl | rfl | rfl | rfl | rfl | rfl | rfl | rfl <;> decide

lemma mem_code_of_mem_codeIcon (e : String) (h : e ∈ codeIconExts) (hgo : e ≠ "go") :
    e ∈ codeExts := by
  simp only [codeIconExts, List.mem_cons, List.not_mem_nil, or_false] at h
  rcases h with rfl | rfl | rfl | rfl | rfl | rfl | rfl | rfl | rfl | rfl | rfl
  all_goals first
    | decide
    | exact absurd rfl hgo

/-! ### Claims C6 and C7: the classifiers -/

/-- C6, counterexample: the icon-selection logic and the preview
renderer-selection logic do not classify with the same table. The two
file names `main.go` and `main.xyz` fall into the same preview category
(`other`: the preview predicates recognise neither extension), yet
`getFileIcon` distinguishes them, giving `main.go` the code icon. So no
assignment of categories can explain both logics, refuting the claim at
this explicit input. -/
theorem c6_icon_classifier_divergence :
    classify "main.go" = classify "main.xyz" ∧
      getFileIcon "main.go" ≠ getFileIcon "main.xyz" ∧
      getFileIcon "main.go" = FileIconKind.fileCodeGreen ∧
      classify "main.go" = ContentCategory.other := by decide

/-- C6 (amended): on every file name whose extension is not `go`, the two
logics agree: `getFileIcon` equals the icon associated with the preview
category of the name (pdf, image and code map to their dedicated icons,
all remaining categories to the default text icon). The extension `go`
is the single divergence: the icon logic lists it as code while the
preview predicates do not recognise it. -/
theorem c6_agreement_off_go (f : String) (hgo : fileExt f ≠ "go") :
    getFileIcon f = iconOfCategory (classify f) := by
  by_cases h1 : fileExt f = "pdf"
  · simp only [getFileIcon, classify, h1]
    decide
  · have hp : isPdf (fileExt f) = false := by simp [isPdf, h1]
    by_cases h2 : fileExt f ∈ imageExts
    · have himg : isImage (fileExt f) = true := by simp [isImage, h2]
      simp [getFileIcon, classify, h1, h2, hp, himg, iconOfCategory]
    · have himg : isImage (fileExt f) = false := by simp [isImage, h2]
      by_cases h3 : fileExt f ∈ codeIconExts
      · have hcode : isCode (fileExt f) = true := by
          simp [isCode, mem_code_of_mem_codeIcon _ h3 hgo]
        obtain ⟨hp2, hi2, ht2, hd2, hs2⟩ := isCode_elim _ hcode
        simp [getFileIcon, classify, h1, h2, h3, hcode, hp2, hi2, ht2, hd2, hs2,
          iconOfCategory]
      · have hcode : isCode (fileExt f) = false := by
          cases hmem : isCode (fileExt f)
          · rfl
          · exact absurd (mem_codeIcon_of_mem_code _ (by simpa [isCode] using hmem)) h3
        simp only [getFileIcon, classify]
        simp only [List.mem_singleton, h1, decide_False, Bool.false_eq_true, if_false]
        have g2 : decide (fileExt f ∈ imageExts) = false := by simp [h2]
        have g3 : decide (fileExt f ∈ codeIconExts) = false := by simp [h3]
        simp only [g2, g3, hp, himg, hcode, Bool.false_eq_true, if_false]
        split_ifs <;> rfl

theorem c6_agreement_off_go_witness :
    getFileIcon "app.py" = iconOfCategory (classify "app.py") :=
  c6_agreement_off_go "app.py" (by decide)

/-- C7, counterexample: the file name `pdf` contains no dot, so it has no
extension, yet it is not classified `other`: `split('.').pop()` yields
the whole name, which then matches the pdf test. This refutes the claim
that every file name without an extension maps to `other`. -/
theorem c7_dotless_name_counterexample :
    ('.' ∉ "pdf".toList) ∧ classify "pdf" = ContentCategory.pdf ∧
      ContentCategory.pdf ≠ ContentCategory.other := by decide

/-- C7 (amended): the classifier is a pure total function of the
lowercased final dot-separated segment of the file name, which is the
whole lowercased name when no dot is present; every file name whose
computed segment is unrecognised by all six tables is classified
`other`. -/
theorem c7_classifier_of_extension :
    (∀ f g : String, fileExt f = fileExt g → classify f = classify g) ∧
      (∀ f : String,
        fileExt f ∉
          "pdf" :: (imageExts ++ textExts ++ documentExts ++ spreadsheetExts ++ codeExts) →
        classify f = ContentCategory.other) := by
  constructor
  · intro f g h
    simp only [classify, h]
  · intro f h
    simp only [List.mem_cons, List.mem_append, not_or] at h
    obtain ⟨h1, ⟨⟨⟨h2, h3⟩, h4⟩, h5⟩, h6⟩ := h
    simp [classify, isPdf, isImage, isTextFile, isDocument, isSpreadsheet, isCode,
      h1, h2, h3, h4, h5, h6]

theorem c7_classifier_of_extension_witness :
    classify "a.TXT" = classify "b.txt" ∧ classify "data.bin" = ContentCategory.other :=
  ⟨c7_classifier_of_extension.1 "a.TXT" "b.txt" (by decide),
   c7_classifier_of_extension.2 "data.bin" (by decide)⟩

/-! ### Claim C5: the renderer decision table -/

lemma idxUnavailableMsg_ne_empty : idxUnavailableMsg ≠ "" := by decide

/-- C5: for every category and fetch state, the renderer of the displayed
(original) panel evaluates exactly the decision table of the spec, first
match winning: loading yields the spinner regardless of category, then a
present error the error panel, then pdf with a binary resource the
embedded viewer with the toolbar suppressed, then image with a binary
resource the bounded image, then document without decoded text the
download placeholder, and otherwise the preformatted text block. In
particular a pdf whose resource has not yet loaded (the original fetch is
still unsettled) renders the spinner, never the text branch. -/
theorem c5_renderer_decision_table (req : PreviewRequest) (s : ModalState) :
    renderFileContent req true s = selectRendererSpec req s ∧
      (classify req.fileName = ContentCategory.pdf → s.originalContentLoading = true →
        renderFileContent req true s = RenderInstruction.spinner) := by
  constructor
  · by_cases hl : (s.isLoading || s.originalContentLoading) = true
    · simp [renderFileContent, selectRendererSpec, hl]
    · have hl0 : s.isLoading = false ∧ s.originalContentLoading = false := by
        revert hl; cases s.isLoading <;> cases s.originalContentLoading <;> simp
      obtain ⟨hli, hlo⟩ := hl0
      cases herr : s.error with
      | some m => simp [renderFileContent, selectRendererSpec, hli, hlo, herr]
      | none =>
        by_cases hp : isPdf (fileExt req.fileName) = true
        · have hcp := (classify_eq_pdf_iff req.fileName).2 hp
          obtain ⟨hi, ht, hd, hs2, hc⟩ := isPdf_elim _ hp
          by_cases hurl : s.fileUrl = ""
          · simp [renderFileContent, selectRendererSpec, hli, hlo, herr, hp, hi, hd,
              hc, hcp, hurl]
          · simp [renderFileContent, selectRendererSpec, hli, hlo, herr, hp, hcp, hurl]
        · by_cases hi : isImage (fileExt req.fileName) = true
          · have hci := (classify_eq_image_iff req.fileName).2 hi
            obtain ⟨hp2, ht, hd, hs2, hc⟩ := isImage_elim _ hi
            by_cases hurl : s.fileUrl = ""
            · simp [renderFileContent, selectRendererSpec, hli, hlo, herr, hp, hi,
                hd, hc, hci, hurl]
            · simp [renderFileContent, selectRendererSpec, hli, hlo, herr, hp, hi,
                hci, hurl]
          · by_cases hd : isDocument (fileExt req.fileName) = true
            · have hcd := (classify_eq_document_iff req.fileName).2 hd
              obtain ⟨hp2, hi2, ht, hs2, hc⟩ := isDocument_elim _ hd
              by_cases hoc : s.originalContent = ""
              · simp [renderFileContent, selectRendererSpec, hli, hlo, herr, hp, hi,
                  hd, hcd, hoc]
              · simp [renderFileContent, selectRendererSpec, hli, hlo, herr, hp, hi,
                  hd, hc, hcd, hoc]
            · simp [renderFileContent, selectRendererSpec, hli, hlo, herr, hp, hi, hd,
                classify_eq_pdf_iff, classify_eq_image_iff, classify_eq_document_iff,
                decide_classify_code]
  · intro _ hload
    simp [renderFileContent, hload]

theorem c5_renderer_decision_table_witness :
    renderFileContent { fileName := "report.pdf" } true initialState =
      RenderInstruction.spinner :=
  (c5_renderer_decision_table { fileName := "report.pdf" } initialState).2
    (by decide) rfl

/-! ### Claim C1: failure independence of the two fetches -/

def c1req : PreviewRequest := { fileName := "a.txt", documentId := some "doc1" }

/-- C1, counterexample: two sessions for the same request, identical
except for the outcome of the original-content fetch, give the indexed
panel different renders: when the original fetch fails, the shared error
state makes the indexed panel render the error panel instead of the
fetched indexed content. The failure of one fetch therefore does change
what the other panel displays, refuting the claim at this explicit
input. -/
theorem c1_shared_error_counterexample :
    renderFileContent c1req false
        (run [Event.eOpen c1req, Event.eOrigResolve c1req OrigOutcome.netErr,
              Event.eIdxResolve (IdxOutcome.ok "IDX"), Event.eFinally]).1 =
      RenderInstruction.errorPanel origFailMsg ∧
    renderFileContent c1req false
        (run [Event.eOpen c1req, Event.eOrigResolve c1req (OrigOutcome.ok "blob:1" "TXT"),
              Event.eIdxResolve (IdxOutcome.ok "IDX"), Event.eFinally]).1 =
      RenderInstruction.preText "IDX" false ∧
    RenderInstruction.errorPanel origFailMsg ≠ RenderInstruction.preText "IDX" false := by
  decide

/-- C1 (amended): independence holds in one direction only. A failed
indexed-content fetch leaves the original panel render unchanged (it only
stores its message in the indexed content), but a failed original-content
fetch sets the shared error state, and whenever that error is present the
indexed panel renders the error panel rather than its own content. -/
theorem c1_one_sided_independence (req : PreviewRequest) (s : ModalState) (m : String) :
    renderFileContent req true (fetchIndexedContentResolve IdxOutcome.httpErr s) =
        renderFileContent req true s ∧
      renderFileContent req true (fetchIndexedContentResolve IdxOutcome.netErr s) =
        renderFileContent req true s ∧
      (s.error = some m → s.isLoading = false → s.indexedContentLoading = false →
        renderFileContent req false s = RenderInstruction.errorPanel m) := by
  refine ⟨rfl, rfl, ?_⟩
  intro he hl hil
  simp [renderFileContent, he, hl, hil]

theorem c1_one_sided_independence_witness :
    renderFileContent c1req false
        { initialState with
          isLoading := false
          indexedContentLoading := false
          error := some origFailMsg } = RenderInstruction.errorPanel origFailMsg :=
  (c1_one_sided_independence c1req
    { initialState with
      isLoading := false
      indexedContentLoading := false
      error := some origFailMsg } origFailMsg).2.2 rfl rfl rfl

/-! ### Claim C2: stale in-flight fetches are not invalidated -/

def c2reqA : PreviewRequest := { fileName := "a.txt" }

def c2reqB : PreviewRequest := { fileName := "b.txt" }

def c2trace : List Event :=
  [Event.eOpen c2reqA,
   Event.eOpen c2reqB,
   Event.eOrigResolve c2reqB (OrigOutcome.ok "blob:new" "new content"),
   Event.eFinally,
   Event.eOrigResolve c2reqA (OrigOutcome.ok "blob:stale" "stale content"),
   Event.eFinally]

/-- C2: the code keeps no request token and installs no effect cleanup,
so the continuation of a fetch started for an earlier request applies its
state updates unchanged when it finally resolves. In the trace below the
modal is reopened for `b.txt` while the fetch for `a.txt` is still in
flight; the new fetch resolves first, then the stale one, and the stale
result overwrites the displayed content and the object URL. The claim
says the stale result must be discarded; the code renders it. -/
theorem c2_stale_fetch_overwrites :
    (run c2trace).1.originalContent = "stale content" ∧
      renderFileContent c2reqB true (run c2trace).1 =
        RenderInstruction.preText "stale content" false ∧
      (run c2trace).1.fileUrl = "blob:stale" := by
  decide

/-! ### Claim C3: no object URL is ever revoked -/

def c3req : PreviewRequest := { fileName := "photo.png" }

lemma step_no_revoke (ev : Event) (s : ModalState) :
    ((step ev s).2.countP isRevokeURLEffect) = 0 := by
  cases ev with
  | eOpen req =>
    have h1 : (fetchOriginalContentStart req
        { s with isLoading := true, error := none }).effects.countP isRevokeURLEffect = 0 := by
      unfold fetchOriginalContentStart
      split_ifs <;> simp [isRevokeURLEffect]
    have h2 : ∀ s2 : ModalState,
        (fetchIndexedContentStart req s2).effects.countP isRevokeURLEffect = 0 := by
      intro s2
      unfold fetchIndexedContentStart
      split_ifs <;> simp [isRevokeURLEffect]
    simp [step, openEffect, List.countP_append, h1, h2]
  | eOrigResolve req o =>
    cases o <;> simp [step, fetchOriginalContentResolve, isRevokeURLEffect]
  | eIdxResolve o => simp [step]
  | eFinally => simp [step]
  | eClose => simp [step]

lemma runFrom_no_revoke (es : List Event) : ∀ p : ModalState × List Effect,
    p.2.countP isRevokeURLEffect = 0 →
    ((runFrom p es).2.countP isRevokeURLEffect) = 0 := by
  induction es with
  | nil =>
    intro p h
    simpa [runFrom] using h
  | cons ev evs ih =>
    intro p h
    simp only [runFrom]
    apply ih
    simp [List.countP_append, h, step_no_revoke]

/-- C3: the component contains no call to `URL.revokeObjectURL` on any
path, so no session trace whatsoever performs a revocation: in every run
the number of revoke effects is zero, while the concrete image session
below (successful binary fetch, then explicit close) creates exactly one
object URL. The claim demands exactly one revocation on close; the code
performs none and leaks the resource. -/
theorem c3_no_revocation_on_close :
    (∀ es : List Event, ((run es).2.countP isRevokeURLEffect) = 0) ∧
      ((run [Event.eOpen c3req,
             Event.eOrigResolve c3req (OrigOutcome.ok "blob:img" "BYTES"),
             Event.eFinally, Event.eClose]).2.countP isCreateURLEffect = 1) := by
  constructor
  · intro es
    exact runFrom_no_revoke es _ (by simp)
  · decide

/-! ### Claim C4: the open transition does not reset content state -/

def c4reqText : PreviewRequest := { fileName := "a.txt" }

def c4reqDoc : PreviewRequest := { fileName := "b.docx" }

def c4trace : List Event :=
  [Event.eOpen c4reqText,
   Event.eOrigResolve c4reqText (OrigOutcome.ok "blob:old" "hello"),
   Event.eFinally,
   Event.eOpen c4reqDoc,
   Event.eOrigResolve c4reqDoc (OrigOutcome.ok "blob:2" "RAWDOCX"),
   Event.eFinally]

/-- C4, counterexample: previewing `a.txt` (fetched text `hello`) and
then reopening the same mounted modal for `b.docx` leaves the previous
original content in place: the docx fetch stores no decoded text, the
stale `hello` makes the document placeholder branch test fail, and the
panel for the new request displays `hello`, the content fetched for the
previously previewed file, refuting the claim at this explicit input. -/
theorem c4_stale_content_counterexample :
    (run c4trace).1.originalContent = "hello" ∧
      renderFileContent c4reqDoc true (run c4trace).1 =
        RenderInstruction.preText "hello" false := by
  decide

/-- C4 (amended): the open transition resets only the aggregate loading
flag and the shared error (and restarts the per-fetch loading flags);
the original content, the indexed content and the binary resource URL
keep their previous-session values until the new fetches happen to
overwrite them. -/
theorem c4_partial_reset (req : PreviewRequest) (s : ModalState)
    (hmo : jsTruthy req.mockOriginalContent = false)
    (hmi : jsTruthy req.mockIndexedContent = false)
    (hdoc : jsTruthy req.documentId = true) :
    (openEffect req s).1.isLoading = true ∧
      (openEffect req s).1.error = none ∧
      (openEffect req s).1.originalContentLoading = true ∧
      (openEffect req s).1.indexedContentLoading = true ∧
      (openEffect req s).1.originalContent = s.originalContent ∧
      (openEffect req s).1.indexedContent = s.indexedContent ∧
      (openEffect req s).1.fileUrl = s.fileUrl := by
  simp [openEffect, fetchOriginalContentStart, fetchIndexedContentStart, hmo, hmi, hdoc]

theorem c4_partial_reset_witness :
    (openEffect { fileName := "b.docx", documentId := some "d2" }
        { initialState with
          isLoading := false
          originalContent := "hello"
          fileUrl := "blob:old" }).1.originalContent = "hello" :=
  (c4_partial_reset { fileName := "b.docx", documentId := some "d2" }
    { initialState with
      isLoading := false
      originalContent := "hello"
      fileUrl := "blob:old" } rfl rfl rfl).2.2.2.2.1

/-! ### Claim C8: missing document identifier -/

def c8req : PreviewRequest := { fileName := "notes.txt" }

/-- C8: when the request carries no document identifier and none can be
derived (no file path either), the synchronous part of the indexed fetch
throws the no-document-id error before any request is issued: the flow is
the no-identifier throw, the effect list is empty, the fetch settles
terminally with the unavailable message stored as the indexed content,
the shared error state is untouched, and once the aggregate loading flag
drops the indexed panel renders that message. -/
theorem c8_missing_id_no_request (req : PreviewRequest) (s : ModalState)
    (hmi : jsTruthy req.mockIndexedContent = false)
    (hdoc : jsTruthy req.documentId = false)
    (hpath : jsTruthy req.filePath = false)
    (herr : s.error = none) :
    (fetchIndexedContentStart req s).flow = IdxFlow.threwNoDocId ∧
      (fetchIndexedContentStart req s).effects = [] ∧
      (fetchIndexedContentStart req s).state.indexedContent = idxUnavailableMsg ∧
      (fetchIndexedContentStart req s).state.indexedContentLoading = false ∧
      (fetchIndexedContentStart req s).state.error = s.error ∧
      renderFileContent req false
          { (fetchIndexedContentStart req s).state with isLoading := false } =
        RenderInstruction.preText idxUnavailableMsg (isCode (fileExt req.fileName)) := by
  simp only [fetchIndexedContentStart, hmi, hdoc, hpath, Bool.false_eq_true, if_false,
    idxCatch]
  refine ⟨trivial, trivial, trivial, trivial, trivial, ?_⟩
  simp [renderFileContent, herr, idxUnavailableMsg_ne_empty]

theorem c8_missing_id_no_request_witness :
    (fetchIndexedContentStart c8req initialState).flow = IdxFlow.threwNoDocId ∧
      (fetchIndexedContentStart c8req initialState).effects = [] :=
  ⟨(c8_missing_id_no_request c8req initialState rfl rfl rfl rfl).1,
   (c8_missing_id_no_request c8req initialState rfl rfl rfl rfl).2.1⟩

/-! ### Claim C9: indexed-fetch failures become ordinary content -/

/-- C9: every failure of the indexed-content fetch stores the fixed
unavailable message as the indexed content and settles the fetch, never
touching the shared error state. A failed resolution produces a state
equal to that of a successful resolution whose fetched content is that
very message, so the indexed panel displays the failure text as ordinary
preformatted content, indistinguishable from fetched indexed text; the
synchronous prefix (covering the missing-identifier and mock paths)
likewise never touches the shared error state. -/
theorem c9_indexed_failure_as_content (req : PreviewRequest) (s : ModalState) :
    fetchIndexedContentResolve IdxOutcome.httpErr s =
        fetchIndexedContentResolve (IdxOutcome.ok idxUnavailableMsg) s ∧
      fetchIndexedContentResolve IdxOutcome.netErr s =
        fetchIndexedContentResolve (IdxOutcome.ok idxUnavailableMsg) s ∧
      (fetchIndexedContentResolve IdxOutcome.netErr s).error = s.error ∧
      (fetchIndexedContentResolve IdxOutcome.netErr s).indexedContent = idxUnavailableMsg ∧
      (fetchIndexedContentResolve IdxOutcome.netErr s).indexedContentLoading = false ∧
      (fetchIndexedContentStart req s).state.error = s.error ∧
      (s.error = none → s.isLoading = false →
        renderFileContent req false (fetchIndexedContentResolve IdxOutcome.netErr s) =
          RenderInstruction.preText idxUnavailableMsg (isCode (fileExt req.fileName))) := by
  refine ⟨rfl, rfl, rfl, rfl, rfl, ?_, ?_⟩
  · unfold fetchIndexedContentStart
    split_ifs <;> simp [idxCatch]
  · intro herr hl
    simp [renderFileContent, fetchIndexedContentResolve, idxCatch, herr, hl,
      idxUnavailableMsg_ne_empty]

theorem c9_indexed_failure_as_content_witness :
    renderFileContent { fileName := "a.md" } false
        (fetchIndexedContentResolve IdxOutcome.netErr
          { initialState with isLoading := false }) =
      RenderInstruction.preText idxUnavailableMsg (isCode (fileExt "a.md")) :=
  (c9_indexed_failure_as_content { fileName := "a.md" }
    { initialState with isLoading := false }).2.2.2.2.2.2 rfl rfl

/-! ### Claim C10: mock original content short-circuits the binary path -/

/-- A complete session for a request whose original fetch takes the mock
short-circuit: the open effect (which then leaves no original
continuation pending), the optional resolution of the indexed fetch, the
finally callback, and the explicit close. -/
def runMockSession (req : PreviewRequest) (o : Option IdxOutcome) :
    ModalState × List Effect :=
  run ([Event.eOpen req] ++
    (match o with
     | some oc => [Event.eIdxResolve oc]
     | none => []) ++ [Event.eFinally, Event.eClose])

/-- C10: when the mock original content prop is a non-empty string, the
original fetch stores the mock text and returns before the try block: no
file-content request is issued, no object URL is created, and the binary
resource URL stays empty for the whole session. Consequently the pdf and
image renderer branches are unreachable and the download button is never
rendered, regardless of the extension of the file. -/
theorem c10_mock_original_no_binary (req : PreviewRequest) (o : Option IdxOutcome)
    (hmo : jsTruthy req.mockOriginalContent = true) :
    (runMockSession req o).1.originalContent = req.mockOriginalContent.getD "" ∧
      (runMockSession req o).1.fileUrl = "" ∧
      (runMockSession req o).2.countP isNetGetFileEffect = 0 ∧
      (runMockSession req o).2.countP isCreateURLEffect = 0 ∧
      rendersBinary (renderFileContent req true (runMockSession req o).1) = false ∧
      downloadButtonShown (runMockSession req o).1 = false := by
  have hne : req.mockOriginalContent.getD "" ≠ "" := by
    simpa [jsTruthy] using hmo
  cases o with
  | none =>
    simp only [runMockSession, run, runFrom, step, openEffect,
      fetchOriginalContentStart, fetchIndexedContentStart, hmo, if_true]
    split_ifs <;>
      simp_all [renderFileContent, rendersBinary, downloadButtonShown, idxCatch,
        initialState, isNetGetFileEffect, isCreateURLEffect, hne]
  | some oc =>
    cases oc <;>
      · simp only [runMockSession, run, runFrom, step, openEffect,
          fetchOriginalContentStart, fetchIndexedContentStart,
          fetchIndexedContentResolve, hmo, if_true]
        split_ifs <;>
          simp_all [renderFileContent, rendersBinary, downloadButtonShown, idxCatch,
            initialState, isNetGetFileEffect, isCreateURLEffect, hne]

def c10req : PreviewRequest :=
  { fileName := "report.pdf", documentId := some "d1", mockOriginalContent := some "MOCK" }

theorem c10_mock_original_no_binary_witness :
    rendersBinary (renderFileContent c10req true
        (runMockSession c10req (some (IdxOutcome.ok "IDXTEXT"))).1) = false ∧
      downloadButtonShown (runMockSession c10req (some (IdxOutcome.ok "IDXTEXT"))).1 = false :=
  ⟨(c10_mock_original_no_binary c10req (some (IdxOutcome.ok "IDXTEXT"))
      (by decide)).2.2.2.2.1,
   (c10_mock_original_no_binary c10req (some (IdxOutcome.ok "IDXTEXT"))
      (by decide)).2.2.2.2.2⟩
